import Mathlib

/-!
The four HTTP handlers of `main.go` (github-explorer-backend).

A shallow embedding of `signUpHandler`, `signinHandler`,
`getBookmarkedProjectsHandler` and `addBookmarkedProjectHandler`.

* Go's `int` is `Int` (64-bit range enforced where `strconv.Atoi` checks it),
  Go's `error` is its message.
* The collaborators the handlers call but `main.go` does not define
  (`teste/db`, `teste/util`, `teste/service`, `jwt-go`, `time`, the SQL
  connection) are the fields of `Deps`, each threading a world state `σ`.
* A handler returns the final world state, the sequence of collaborator calls
  it made (with their results), and what it handed back to the framework.
-/

namespace GithubExplorer

/-- Go's `error`, carried as its message. -/
abbrev Error := String

deriving instance DecidableEq for Except

/-- The fields of `db.User` that `main.go` reads or writes. The struct itself is
declared in `teste/db`; the three profile fields are carried as text. -/
structure User where
  Id : Int
  Username : String
  Password : String
  Email : String
  Languages : String
  FavoriteLanguage : String
  Frequency : String
deriving DecidableEq, Repr

/-- The fields of `db.Project` (declared in `teste/db`): the generated id and the
natural key read by `addBookmarkedProjectHandler`. -/
structure Project where
  Id : Int
  Name : String
  Author : String
  Language : String
deriving DecidableEq, Repr

/-- The part of `jwt.StandardClaims` that `signinHandler` sets. -/
structure StandardClaims where
  ExpiresAt : Int
deriving DecidableEq, Repr

/-- The struct `jwtCustomClaims` (main.go:24-28). -/
structure jwtCustomClaims where
  Id : Int
  Username : String
  StandardClaims : StandardClaims
deriving DecidableEq, Repr

/-- A value stored in one of the handler's `map[string]interface{}` literals. -/
inductive Value where
  | int (n : Int)
  | str (s : String)
deriving DecidableEq, Repr

/-- The type `ErrorResponse` (main.go:22): a `map[string]interface{}`, listed in key order
(the order in which `encoding/json` writes a map). -/
abbrev ErrorResponse := List (String × Value)

/-- The literal `ErrorResponse{"code": code, "message": message}`. -/
def errorResponse (code : Int) (message : String) : ErrorResponse :=
  [("code", Value.int code), ("message", Value.str message)]

/-- The second argument of `c.JSON`. -/
inductive Body where
  | text (s : String)
  | error (e : ErrorResponse)
  | projects (ps : List Project)
  | login (token : String) (user : List (String × Value))
deriving DecidableEq, Repr

/-- What a handler hands back to the framework: the response written by
`c.JSON(code, body)` (whose own result is taken to be `nil`), or a non-nil
`error` returned without writing a response. -/
inductive Outcome where
  | JSON (code : Nat) (body : Body)
  | err (e : Error)
deriving DecidableEq, Repr

def StatusOK : Nat := 200
def StatusBadRequest : Nat := 400
def StatusForbidden : Nat := 403
def StatusInternalServerError : Nat := 500

/-- The request as the handlers see it through `echo.Context`: the path
parameter `id` and what `c.Bind` decodes the body into. -/
structure Context where
  Param : String
  BindUser : Except Error User
  BindProject : Except Error Project

/-- One call to a collaborator, with its arguments and its result. -/
inductive Call where
  | Println (args : List String)
  | HashPassword (password : String) (res : Except Error String)
  | InsertUser (username password email createdOn : String) (res : Except Error Int)
  | SendEmail (username email : String) (res : Option Error)
  | ConfirmUser (u : User) (res : Except Error User)
  | SignedString (claims : jwtCustomClaims) (key : String) (res : Except Error String)
  | FetchUserBookmarkedProjects (userId : Int) (res : List Project)
  | ProjectExists (name author language : String) (res : Except Error Int)
  | AddProject (p : Project) (res : Except Error Int)
  | BookmarkProject (userId projectId : Int) (res : Except Error Int)
deriving DecidableEq

/-- The storage operations of the bookmark endpoints. -/
def Call.isStorage : Call → Bool
  | .FetchUserBookmarkedProjects _ _ => true
  | .ProjectExists _ _ _ _ => true
  | .AddProject _ _ => true
  | .BookmarkProject _ _ _ => true
  | _ => false

def Call.isHashPassword : Call → Bool
  | .HashPassword _ _ => true
  | _ => false

def Call.isInsertUser : Call → Bool
  | .InsertUser _ _ _ _ _ => true
  | _ => false

def Call.isSendEmail : Call → Bool
  | .SendEmail _ _ _ => true
  | _ => false

def Call.isSignedString : Call → Bool
  | .SignedString _ _ _ => true
  | _ => false

def Call.isAddProject : Call → Bool
  | .AddProject _ _ => true
  | _ => false

/-- The collaborators of the handlers, over a world state `σ` (database
contents, mail service, clock, randomness). -/
structure Deps (σ : Type) where
  /-- The call `util.HashPassword(password)`. -/
  HashPassword : σ → String → σ × Except Error String
  /-- The statement of main.go:41-42:
  `config.Connection().QueryRow(sqlStmt, username, password, email, "now()").Scan(&u.Id)`. -/
  InsertUser : σ → String → String → String → String → σ × Except Error Int
  /-- The call `service.SendEmail(username, email)`; `none` is a nil error. -/
  SendEmail : σ → String → String → σ × Option Error
  /-- The call `db.ConfirmUser(config.Connection(), u)`. -/
  ConfirmUser : σ → User → σ × Except Error User
  /-- The call `time.Now()`, in nanoseconds since the Unix epoch. -/
  Now : σ → Int
  /-- The call `jwt.NewWithClaims(jwt.SigningMethodHS256, claims).SignedString(key)`. -/
  SignedString : jwtCustomClaims → String → Except Error String
  /-- The call `db.FetchUserBookmarkedProjects(config.Connection(), userId)`. -/
  FetchUserBookmarkedProjects : σ → Int → σ × List Project
  /-- The call `db.ProjectExists(config.Connection(), name, author, language)`. -/
  ProjectExists : σ → String → String → String → σ × Except Error Int
  /-- The call `db.AddProject(config.Connection(), p)`. -/
  AddProject : σ → Project → σ × Except Error Int
  /-- The call `db.BookmarkProject(config.Connection(), userId, projectId)`. -/
  BookmarkProject : σ → Int → Int → σ × Except Error Int

/-- A finished handler run. -/
structure Run (σ : Type) where
  state : σ
  calls : List Call
  out : Outcome

/-! ## `strconv.Atoi` -/

/-- The digit loop of `strconv.ParseUint(s, 10, 64)`: a byte that is not a
decimal digit is a syntax error, a value above `2^64 - 1` a range error. -/
def parseDigits : List Char → Nat → Except Error Nat
  | [], n => .ok n
  | c :: cs, n =>
    if c.isDigit then
      let n1 := n * 10 + (c.toNat - 48)
      if n1 > 2 ^ 64 - 1 then .error "value out of range" else parseDigits cs n1
    else .error "invalid syntax"

/-- Go's `strconv.Atoi` for a 64-bit `int`: an optional sign, at least one decimal
digit, nothing else, and a value in `[-2^63, 2^63 - 1]`. -/
def Atoi (s : String) : Except Error Int :=
  let cs := s.toList
  let neg := cs.head? == some '-'
  let ds := if cs.head? == some '-' || cs.head? == some '+' then cs.tail else cs
  if ds.isEmpty then .error "invalid syntax"
  else
    match parseDigits ds 0 with
    | .error e => .error e
    | .ok un =>
      if !neg && un ≥ 2 ^ 63 then .error "value out of range"
      else if neg && un > 2 ^ 63 then .error "value out of range"
      else .ok (if neg then - (un : Int) else (un : Int))

/-! ## `time` -/

/-- Go's `time.Hour`, a `Duration` in nanoseconds. -/
def Hour : Int := 3600 * 1000000000

/-- Go's `t.Add(d)` on nanoseconds since the epoch. -/
def Add (t d : Int) : Int := t + d

/-- Go's `t.Unix()`: whole seconds since the epoch, rounded down. -/
def Unix (t : Int) : Int := t / 1000000000

/-! ## The handlers -/

variable {σ : Type}

/-- The handler `signUpHandler` (main.go:30-57). -/
def signUpHandler (d : Deps σ) (s : σ) (c : Context) : Run σ :=
  match c.BindUser with
  | .error _ =>
    ⟨s, [], .JSON StatusBadRequest (.error (errorResponse 1 "Bad request!"))⟩
  | .ok u =>
    match d.HashPassword s u.Password with
    | (s1, .error e) =>
      ⟨s1, [.HashPassword u.Password (.error e), .Println ["Error hashing password..."]],
        .JSON StatusInternalServerError (.error (errorResponse 2 "Server error"))⟩
    | (s1, .ok hash) =>
      let u1 : User := { u with Password := hash }
      match d.InsertUser s1 u1.Username u1.Password u1.Email "now()" with
      | (s2, .error e) =>
        ⟨s2, [.HashPassword u.Password (.ok hash),
              .InsertUser u1.Username u1.Password u1.Email "now()" (.error e),
              .Println [e]],
          .JSON StatusInternalServerError (.error (errorResponse 3 "SQL Error"))⟩
      | (s2, .ok id) =>
        let u2 : User := { u1 with Id := id }
        match d.SendEmail s2 u2.Username u2.Email with
        | (s3, some e) =>
          ⟨s3, [.HashPassword u.Password (.ok hash),
                .InsertUser u1.Username u1.Password u1.Email "now()" (.ok id),
                .Println ["New user is id: ", toString u2.Id],
                .SendEmail u2.Username u2.Email (some e),
                .Println ["Error sending welcome email!"]],
            .JSON StatusOK (.text "OK")⟩
        | (s3, none) =>
          ⟨s3, [.HashPassword u.Password (.ok hash),
                .InsertUser u1.Username u1.Password u1.Email "now()" (.ok id),
                .Println ["New user is id: ", toString u2.Id],
                .SendEmail u2.Username u2.Email none],
            .JSON StatusOK (.text "OK")⟩

/-- The claims built at main.go:70-76. -/
def signinClaims (user : User) (now : Int) : jwtCustomClaims :=
  ⟨user.Id, user.Username, ⟨Unix (Add now (Hour * 24))⟩⟩

/-- The `"user"` map of the sign-in response (main.go:88-94), in key order. -/
def userSummary (user : User) : List (String × Value) :=
  [("favorite_language", .str user.FavoriteLanguage),
   ("frequency", .str user.Frequency),
   ("id", .int user.Id),
   ("languages", .str user.Languages),
   ("username", .str user.Username)]

/-- The handler `signinHandler` (main.go:59-96). -/
def signinHandler (d : Deps σ) (s : σ) (c : Context) : Run σ :=
  match c.BindUser with
  | .error _ =>
    ⟨s, [], .JSON StatusBadRequest (.error (errorResponse 1 "Bad request!"))⟩
  | .ok u =>
    match d.ConfirmUser s u with
    | (s1, .error e) =>
      ⟨s1, [.ConfirmUser u (.error e), .Println ["Hash does not match"]],
        .JSON StatusForbidden (.error (errorResponse 4 "Login credentials are not correct"))⟩
    | (s1, .ok user) =>
      let claims := signinClaims user (d.Now s1)
      match d.SignedString claims "secret" with
      | .error e =>
        ⟨s1, [.ConfirmUser u (.ok user), .SignedString claims "secret" (.error e)], .err e⟩
      | .ok t =>
        ⟨s1, [.ConfirmUser u (.ok user), .SignedString claims "secret" (.ok t)],
          .JSON StatusOK (.login t (userSummary user))⟩

/-- The handler `getBookmarkedProjectsHandler` (main.go:98-107). -/
def getBookmarkedProjectsHandler (d : Deps σ) (s : σ) (c : Context) : Run σ :=
  match Atoi c.Param with
  | .error _ =>
    ⟨s, [.Println ["Problem converting id to integer"]],
      .JSON StatusBadRequest (.error (errorResponse 5 "Bad request!"))⟩
  | .ok userId =>
    match d.FetchUserBookmarkedProjects s userId with
    | (s1, projects) =>
      ⟨s1, [.FetchUserBookmarkedProjects userId projects], .JSON StatusOK (.projects projects)⟩

/-- The handler `addBookmarkedProjectHandler` (main.go:109-152). -/
def addBookmarkedProjectHandler (d : Deps σ) (s : σ) (c : Context) : Run σ :=
  match Atoi c.Param with
  | .error _ =>
    ⟨s, [.Println ["Problem converting id to integer"]],
      .JSON StatusBadRequest (.error (errorResponse 5 "Bad request!"))⟩
  | .ok userId =>
    match c.BindProject with
    | .error _ =>
      ⟨s, [], .JSON StatusBadRequest (.error (errorResponse 1 "Bad request!"))⟩
    | .ok p =>
      match d.ProjectExists s p.Name p.Author p.Language with
      | (s1, .error e) =>
        match d.AddProject s1 p with
        | (s2, .error e2) =>
          ⟨s2, [.ProjectExists p.Name p.Author p.Language (.error e),
                .AddProject p (.error e2),
                .Println ["Problem saving new project!"]],
            .JSON StatusInternalServerError
              (.error (errorResponse 6 "Failed to add new project"))⟩
        | (s2, .ok newProjectId) =>
          match d.BookmarkProject s2 userId newProjectId with
          | (s3, .error e3) =>
            ⟨s3, [.ProjectExists p.Name p.Author p.Language (.error e),
                  .AddProject p (.ok newProjectId),
                  .BookmarkProject userId newProjectId (.error e3),
                  .Println ["Problems bookmarking project 1"]],
              .JSON StatusInternalServerError
                (.error (errorResponse 7 "Failed to bookmark project"))⟩
          | (s3, .ok b) =>
            ⟨s3, [.ProjectExists p.Name p.Author p.Language (.error e),
                  .AddProject p (.ok newProjectId),
                  .BookmarkProject userId newProjectId (.ok b)],
              .JSON StatusOK (.text "Bookmarked project 1")⟩
      | (s1, .ok projectId) =>
        match d.BookmarkProject s1 userId projectId with
        | (s2, .error e2) =>
          ⟨s2, [.ProjectExists p.Name p.Author p.Language (.ok projectId),
                .BookmarkProject userId projectId (.error e2),
                .Println ["Problems bookmarking project 2"]],
            .JSON StatusInternalServerError
              (.error (errorResponse 8 "Failed to bookmark project"))⟩
        | (s2, .ok b) =>
          ⟨s2, [.ProjectExists p.Name p.Author p.Language (.ok projectId),
                .BookmarkProject userId projectId (.ok b)],
            .JSON StatusOK (.text "Bookmarked project 2")⟩

/-- The response `c.JSON(status, ErrorResponse{"code": code, "message": message})`. -/
def errorJSON (status : Nat) (code : Int) (message : String) : Outcome :=
  .JSON status (.error (errorResponse code message))

/-! ## Observations on a run -/

/-- Whether every `service.SendEmail` call of a trace comes after a users INSERT
that succeeded; `seen` says whether such an INSERT was already passed. -/
def emailOnlyAfterInsert : Bool → List Call → Bool
  | _, [] => true
  | _, .InsertUser _ _ _ _ (.ok _) :: cs => emailOnlyAfterInsert true cs
  | seen, .SendEmail _ _ _ :: cs => seen && emailOnlyAfterInsert seen cs
  | seen, _ :: cs => emailOnlyAfterInsert seen cs

/-- The HTTP status of the response, when one was written. -/
def Outcome.status : Outcome → Option Nat
  | .JSON code _ => some code
  | .err _ => none

/-- A failure outcome: anything but a response with status 200. -/
def Outcome.isFailure (o : Outcome) : Bool := o.status != some StatusOK

/-- The keys and code of an error body: `some code` when the outcome is a JSON
body with exactly the two keys `code` (an integer) and `message` (a string). -/
def Outcome.errorCode : Outcome → Option Int
  | .JSON _ (.error [("code", .int n), ("message", .str _)]) => some n
  | _ => none

/-- The `(userId, projectId)` arguments of the `db.BookmarkProject` calls of a
trace, in order. -/
def bookmarkArgs : List Call → List (Int × Int)
  | [] => []
  | .BookmarkProject u p _ :: cs => (u, p) :: bookmarkArgs cs
  | _ :: cs => bookmarkArgs cs

/-- Whether a call is a `db.BookmarkProject` that returned a nil error. -/
def Call.isBookmarkOk : Call → Bool
  | .BookmarkProject _ _ (.ok _) => true
  | _ => false

/-- The password arguments of the users INSERTs of a trace, in order. -/
def insertedPasswords : List Call → List String
  | [] => []
  | .InsertUser _ pw _ _ _ :: cs => pw :: insertedPasswords cs
  | _ :: cs => insertedPasswords cs

/-- The claims of the tokens signed in a trace, in order. -/
def signedClaims : List Call → List jwtCustomClaims
  | [] => []
  | .SignedString cl _ _ :: cs => cl :: signedClaims cs
  | _ :: cs => signedClaims cs

/-- Whether a project row carries the natural key `(name, author, language)`. -/
def Project.hasKey (r : Project) (name author language : String) : Bool :=
  r.Name == name && r.Author == author && r.Language == language

/-! ## The collaborators' contracts, as the specification words them -/

/-- Modelled from the spec: `util.HashPassword` (package `teste/util`, absent
from the sources) is "a one-way hash", and the password "is stored as a one-way
hash, never plaintext": whenever hashing succeeds, the hash differs from the
password it was computed from. -/
def HashIsOneWay (d : Deps σ) : Prop :=
  ∀ s password s1 hash, d.HashPassword s password = (s1, .ok hash) → hash ≠ password

/-- Modelled from the spec: how the project repository of `teste/db` (absent
from the sources), spec section 4.2, acts on the `projects` table, observed by
`rows`. The lookup leaves the table alone, whatever it returns; `addProject`
inserts one row carrying the project's key when it succeeds and none when it
fails; `bookmarkProject` leaves the table alone. -/
structure ProjectRows (d : Deps σ) (rows : σ → List Project) : Prop where
  lookup : ∀ s name author language s1 res,
    d.ProjectExists s name author language = (s1, res) → rows s1 = rows s
  add_ok : ∀ s p s1 id, d.AddProject s p = (s1, .ok id) →
    ∃ r, r.hasKey p.Name p.Author p.Language = true ∧ (rows s1).Perm (r :: rows s)
  add_err : ∀ s p s1 e, d.AddProject s p = (s1, .error e) → rows s1 = rows s
  bookmark : ∀ s userId projectId s1 res,
    d.BookmarkProject s userId projectId = (s1, res) → rows s1 = rows s

/-- Modelled from the spec: `projectExists` (spec section 4.2) is a "point
lookup on the natural key" whose only failure is not-found: it returns an id
only when a row carries the key, and an error only when no row does. -/
structure ProjectLookup (d : Deps σ) (rows : σ → List Project) : Prop where
  found : ∀ s name author language s1 id,
    d.ProjectExists s name author language = (s1, .ok id) →
      ∃ r ∈ rows s, r.hasKey name author language = true
  not_found : ∀ s name author language s1 e,
    d.ProjectExists s name author language = (s1, .error e) →
      ∀ r ∈ rows s, r.hasKey name author language = false

/-- The signing step of main.go:78-81 cannot fail: HS256 over the byte-slice
key `[]byte("secret")`, as `jwt-go` implements it, returns a token and a nil
error for every claims value. -/
def SignerTotal (d : Deps σ) : Prop :=
  ∀ claims, ∃ t, d.SignedString claims "secret" = .ok t

/-! ## A concrete store -/

/-- Modelled from the spec: the relational store behind `teste/db` (absent from
the sources), spec sections 3, 4.1, 4.2 and 6: the `users` and `projects`
tables, the bookmark association table `(user_id, project_id)`, and whether the
connection is up. The clock and the mail service complete the world the
handlers run in. -/
structure Store where
  connected : Bool
  users : List User
  projects : List Project
  bookmarks : List (Int × Int)
  clock : Int
  mailUp : Bool
  outbox : List (String × String)
deriving DecidableEq, Repr

/-- A stand-in for bcrypt: rejects passwords longer than 72 characters and
otherwise prefixes the password with a version marker. -/
def Store.HashPassword (st : Store) (password : String) : Store × Except Error String :=
  if password.length > 72 then (st, .error "password length exceeds 72 bytes")
  else (st, .ok ("$2a$" ++ password))

/-- Modelled from the spec: the verify routine of the hashing utility. -/
def CheckPasswordHash (password hash : String) : Bool := hash == "$2a$" ++ password

/-- Modelled from the spec: `createUser` (section 4.1) "inserts a new user row,
returns the generated id. Fails if username is not unique (store-level
constraint) or on connectivity loss". -/
def Store.InsertUser (st : Store) (username password email _createdOn : String) :
    Store × Except Error Int :=
  if !st.connected then (st, .error "connection failure")
  else if st.users.any (fun r => r.Username == username) then
    (st, .error "duplicate key value violates unique constraint")
  else
    let id : Int := st.users.length + 1
    ({ st with users := st.users ++ [⟨id, username, password, email, "", "", ""⟩] }, .ok id)

/-- The welcome email: delivered to the outbox when the mail service is up. -/
def Store.SendEmail (st : Store) (username email : String) : Store × Option Error :=
  if st.mailUp then ({ st with outbox := st.outbox ++ [(username, email)] }, none)
  else (st, some "mail service unavailable")

/-- Modelled from the spec: `confirmUser` (section 4.1) "looks up a user by
username, verifies the supplied password against the stored hash". -/
def Store.ConfirmUser (st : Store) (u : User) : Store × Except Error User :=
  match st.users.find? (fun r => r.Username == u.Username) with
  | none => (st, .error "user not found")
  | some r =>
    if CheckPasswordHash u.Password r.Password then (st, .ok r)
    else (st, .error "password does not match")

/-- Modelled from the spec: `projectExists` (section 4.2), a "point lookup on
the natural key" whose only failure is not-found. -/
def Store.ProjectExists (st : Store) (name author language : String) :
    Store × Except Error Int :=
  match st.projects.find? (fun r => r.hasKey name author language) with
  | some r => (st, .ok r.Id)
  | none => (st, .error "sql: no rows in result set")

/-- Modelled from the spec: `addProject` (section 4.2) "inserts a new project
row"; it fails on connectivity loss. -/
def Store.AddProject (st : Store) (p : Project) : Store × Except Error Int :=
  if !st.connected then (st, .error "connection failure")
  else
    let id : Int := st.projects.length + 1
    ({ st with projects := st.projects ++ [{ p with Id := id }] }, .ok id)

/-- Modelled from the spec: `bookmarkProject` (section 4.2) "inserts an
association row unconditionally (no dedup check)"; it fails on connectivity
loss. -/
def Store.BookmarkProject (st : Store) (userId projectId : Int) : Store × Except Error Int :=
  if !st.connected then (st, .error "connection failure")
  else ({ st with bookmarks := st.bookmarks ++ [(userId, projectId)] },
        .ok (st.bookmarks.length + 1 : Int))

/-- Modelled from the spec: `fetchBookmarkedProjects` (section 4.2) "returns
all projects associated with the user, empty sequence if none". -/
def Store.FetchUserBookmarkedProjects (st : Store) (userId : Int) : Store × List Project :=
  (st, (st.bookmarks.filter (fun b => b.1 == userId)).flatMap
        (fun b => st.projects.filter (fun r => r.Id == b.2)))

/-- A stand-in for HS256 signing: the token spells out the claims. -/
def sampleSignedString (claims : jwtCustomClaims) (key : String) : Except Error String :=
  .ok (String.intercalate "." [key, claims.Username])

/-- The handlers' collaborators over the concrete store. -/
def storeDeps : Deps Store where
  HashPassword := Store.HashPassword
  InsertUser := Store.InsertUser
  SendEmail := Store.SendEmail
  ConfirmUser := Store.ConfirmUser
  Now := Store.clock
  SignedString := sampleSignedString
  FetchUserBookmarkedProjects := Store.FetchUserBookmarkedProjects
  ProjectExists := Store.ProjectExists
  AddProject := Store.AddProject
  BookmarkProject := Store.BookmarkProject

/-! ## Concrete worlds and requests -/

/-- An empty store with the connection and the mail service up. -/
def emptyStore : Store := ⟨true, [], [], [], 1700000000000000000, true, []⟩

/-- An empty store whose connection is lost. -/
def offlineStore : Store := { emptyStore with connected := false }

/-- An empty store whose mail service is down. -/
def noMailStore : Store := { emptyStore with mailUp := false }

/-- A store holding one registered user, one project and one bookmark. -/
def sampleStore : Store :=
  { emptyStore with
    users := [⟨1, "alice", "$2a$s3cret", "alice@example.org", "Go", "Go", "daily"⟩]
    projects := [⟨1, "echo", "labstack", "Go"⟩]
    bookmarks := [(1, 1)] }

/-- A sign-up or sign-in body for `alice`. -/
def aliceRequest : Context :=
  ⟨"1", .ok ⟨0, "alice", "s3cret", "alice@example.org", "", "", ""⟩, .error "wrong shape"⟩

/-- A sign-in body for `alice` with a wrong password. -/
def wrongPasswordRequest : Context :=
  ⟨"1", .ok ⟨0, "alice", "guess", "", "", "", ""⟩, .error "wrong shape"⟩

/-- A sign-in body for a user that was never registered. -/
def unknownUserRequest : Context :=
  ⟨"1", .ok ⟨0, "mallory", "s3cret", "", "", "", ""⟩, .error "wrong shape"⟩

/-- An add-bookmark request of user 1 for a project that is already stored. -/
def knownProjectRequest : Context :=
  ⟨"1", .error "wrong shape", .ok ⟨0, "echo", "labstack", "Go"⟩⟩

/-- An add-bookmark request of user 1 for a project that is not stored. -/
def novelProjectRequest : Context :=
  ⟨"1", .error "wrong shape", .ok ⟨0, "gin", "gin-gonic", "Go"⟩⟩

/-- A bookmark request whose path id is not an integer. -/
def badIdRequest : Context :=
  ⟨"1x", .error "wrong shape", .ok ⟨0, "gin", "gin-gonic", "Go"⟩⟩

/-! ## Helper lemmas -/

theorem unix_add_day (t : Int) : Unix (Add t (Hour * 24)) = Unix t + 86400 := by
  unfold Unix Add Hour
  have h : (3600 * 1000000000 * 24 : Int) = 86400 * 1000000000 := by norm_num
  rw [h, Int.add_mul_ediv_right _ _ (by norm_num)]

theorem marker_append_ne (p : String) : "$2a$" ++ p ≠ p := by
  intro h
  have hl := congrArg String.length h
  rw [String.length_append] at hl
  have h4 : ("$2a$" : String).length = 4 := by decide
  omega

theorem storeDeps_hashIsOneWay : HashIsOneWay storeDeps := by
  intro s password s1 hash h
  simp only [storeDeps, Store.HashPassword] at h
  split at h
  · simp at h
  · simp only [Prod.mk.injEq, Except.ok.injEq] at h
    rw [← h.2]
    exact marker_append_ne password

theorem storeDeps_projectRows : ProjectRows storeDeps Store.projects where
  lookup := by
    intro s name author language s1 res h
    simp only [storeDeps, Store.ProjectExists] at h
    split at h <;> simp only [Prod.mk.injEq] at h <;> rw [← h.1]
  add_ok := by
    intro s p s1 id h
    simp only [storeDeps, Store.AddProject] at h
    split at h
    · simp at h
    · simp only [Prod.mk.injEq, Except.ok.injEq] at h
      refine ⟨{ p with Id := (s.projects.length : Int) + 1 }, by simp [Project.hasKey], ?_⟩
      rw [← h.1]
      exact List.perm_append_singleton _ _
  add_err := by
    intro s p s1 e h
    simp only [storeDeps, Store.AddProject] at h
    split at h
    · simp only [Prod.mk.injEq] at h
      rw [← h.1]
    · simp at h
  bookmark := by
    intro s userId projectId s1 res h
    simp only [storeDeps, Store.BookmarkProject] at h
    split at h <;> simp only [Prod.mk.injEq] at h <;> rw [← h.1]

theorem storeDeps_projectLookup : ProjectLookup storeDeps Store.projects where
  found := by
    intro s name author language s1 id h
    simp only [storeDeps, Store.ProjectExists] at h
    split at h
    · rename_i r hr
      refine ⟨r, List.mem_of_find?_eq_some hr, ?_⟩
      simpa using List.find?_some hr
    · simp at h
  not_found := by
    intro s name author language s1 e h
    simp only [storeDeps, Store.ProjectExists] at h
    split at h
    · simp at h
    · rename_i hr
      intro r hmem
      have := List.find?_eq_none.mp hr r hmem
      simpa using this

theorem storeDeps_signerTotal : SignerTotal storeDeps :=
  fun _ => ⟨_, rfl⟩

theorem errorCode_errorJSON (status : Nat) (code : Int) (message : String) :
    (errorJSON status code message).errorCode = some code := rfl

theorem isFailure_ok (b : Body) : (Outcome.JSON 200 b).isFailure = false := by
  simp [Outcome.isFailure, Outcome.status, StatusOK]

/-! ## Sign-in: rejection -/

/-- C1: when the sign-in body binds and `db.ConfirmUser` returns an error,
whatever the error, `signinHandler` answers 403 with code 4 and the message
"Login credentials are not correct"; any two such rejected requests (in any
two worlds, failing for any two reasons) get the same response; and no token
is signed. -/
theorem signin_rejection_uniform {τ : Type} (d : Deps σ) (d' : Deps τ) (s s1 : σ) (s' s1' : τ)
    (c c' : Context) (u u' : User) (e e' : Error)
    (hb : c.BindUser = .ok u) (hc : d.ConfirmUser s u = (s1, .error e))
    (hb' : c'.BindUser = .ok u') (hc' : d'.ConfirmUser s' u' = (s1', .error e')) :
    (signinHandler d s c).out
        = .JSON 403 (.error [("code", .int 4), ("message", .str "Login credentials are not correct")])
      ∧ (signinHandler d s c).out = (signinHandler d' s' c').out
      ∧ ∀ x ∈ (signinHandler d s c).calls, x.isSignedString = false := by
  simp [signinHandler, hb, hc, hb', hc', StatusForbidden, errorResponse, Call.isSignedString]

theorem signin_rejection_uniform_witness :
    (signinHandler storeDeps sampleStore unknownUserRequest).out
        = .JSON 403 (.error [("code", .int 4), ("message", .str "Login credentials are not correct")])
      ∧ (signinHandler storeDeps sampleStore unknownUserRequest).out
        = (signinHandler storeDeps sampleStore wrongPasswordRequest).out
      ∧ ∀ x ∈ (signinHandler storeDeps sampleStore unknownUserRequest).calls,
          x.isSignedString = false :=
  signin_rejection_uniform storeDeps storeDeps sampleStore sampleStore sampleStore sampleStore
    unknownUserRequest wrongPasswordRequest _ _ "user not found" "password does not match"
    rfl (by decide) rfl (by decide)

/-! ## Bookmark endpoints: the path id -/

/-- C2: when `strconv.Atoi` rejects the path parameter `id`, both
`getBookmarkedProjectsHandler` and `addBookmarkedProjectHandler` answer 400
with code 5 and "Bad request!", leave the world unchanged and make no storage
call (no `FetchUserBookmarkedProjects`, `ProjectExists`, `AddProject` or
`BookmarkProject`), whatever the body is. -/
theorem bookmark_handlers_bad_id (d : Deps σ) (s : σ) (c : Context) (e : Error)
    (hid : Atoi c.Param = .error e) :
    ((getBookmarkedProjectsHandler d s c).out
        = .JSON 400 (.error [("code", .int 5), ("message", .str "Bad request!")])
      ∧ (getBookmarkedProjectsHandler d s c).state = s
      ∧ ∀ x ∈ (getBookmarkedProjectsHandler d s c).calls, x.isStorage = false)
    ∧ ((addBookmarkedProjectHandler d s c).out
        = .JSON 400 (.error [("code", .int 5), ("message", .str "Bad request!")])
      ∧ (addBookmarkedProjectHandler d s c).state = s
      ∧ ∀ x ∈ (addBookmarkedProjectHandler d s c).calls, x.isStorage = false) := by
  simp [getBookmarkedProjectsHandler, addBookmarkedProjectHandler, hid, StatusBadRequest,
    errorResponse, Call.isStorage]

theorem bookmark_handlers_bad_id_witness :
    ((getBookmarkedProjectsHandler storeDeps sampleStore badIdRequest).out
        = .JSON 400 (.error [("code", .int 5), ("message", .str "Bad request!")])
      ∧ (getBookmarkedProjectsHandler storeDeps sampleStore badIdRequest).state = sampleStore
      ∧ ∀ x ∈ (getBookmarkedProjectsHandler storeDeps sampleStore badIdRequest).calls,
          x.isStorage = false)
    ∧ ((addBookmarkedProjectHandler storeDeps sampleStore badIdRequest).out
        = .JSON 400 (.error [("code", .int 5), ("message", .str "Bad request!")])
      ∧ (addBookmarkedProjectHandler storeDeps sampleStore badIdRequest).state = sampleStore
      ∧ ∀ x ∈ (addBookmarkedProjectHandler storeDeps sampleStore badIdRequest).calls,
          x.isStorage = false) :=
  bookmark_handlers_bad_id storeDeps sampleStore badIdRequest "invalid syntax" (by decide)

/-! ## Add bookmark: project rows -/

/-- C3, as stated, fails: with the connection to the store lost, a request
for a project whose key is in no row makes `addBookmarkedProjectHandler` call
`db.AddProject` once, the call fails, and no project row is created. -/
theorem addBookmark_novel_row_counterexample :
    Atoi novelProjectRequest.Param = .ok 1
      ∧ novelProjectRequest.BindProject = .ok ⟨0, "gin", "gin-gonic", "Go"⟩
      ∧ (∀ r ∈ offlineStore.projects, r.hasKey "gin" "gin-gonic" "Go" = false)
      ∧ (addBookmarkedProjectHandler storeDeps offlineStore novelProjectRequest).calls
          = [.ProjectExists "gin" "gin-gonic" "Go" (.error "sql: no rows in result set"),
             .AddProject ⟨0, "gin", "gin-gonic", "Go"⟩ (.error "connection failure"),
             .Println ["Problem saving new project!"]]
      ∧ (addBookmarkedProjectHandler storeDeps offlineStore novelProjectRequest).out
          = errorJSON 500 6 "Failed to add new project"
      ∧ ¬ ((addBookmarkedProjectHandler storeDeps offlineStore novelProjectRequest).state.projects.length
            = offlineStore.projects.length + 1) := by
  decide

/-- C3, amended: for an add-bookmark request with an integer id and a bindable
body, over any project repository acting on the rows as spec section 4.2
says: if `db.ProjectExists` returns an id, `addBookmarkedProjectHandler` makes
no `db.AddProject` call and the project rows are unchanged; if
`db.ProjectExists` returns an error, whatever the error, it calls
`db.AddProject` exactly once, with the bound project; when that call succeeds
the project rows are the old ones plus exactly one row carrying the body's
key, and when it fails they are unchanged and the handler answers 500 with
code 6. When `db.ProjectExists` is the point lookup of the specification, the
first case is that a row with the key exists and the second that none does. -/
theorem addBookmark_project_rows (d : Deps σ) (rows : σ → List Project)
    (hrows : ProjectRows d rows) (s : σ) (c : Context) (userId : Int) (p : Project)
    (hid : Atoi c.Param = .ok userId) (hb : c.BindProject = .ok p) :
    (∀ s1 pid, d.ProjectExists s p.Name p.Author p.Language = (s1, .ok pid) →
        (addBookmarkedProjectHandler d s c).calls.filter Call.isAddProject = []
        ∧ rows (addBookmarkedProjectHandler d s c).state = rows s)
    ∧ (∀ s1 e, d.ProjectExists s p.Name p.Author p.Language = (s1, .error e) →
        (addBookmarkedProjectHandler d s c).calls.filter Call.isAddProject
            = [.AddProject p (d.AddProject s1 p).2]
        ∧ (∀ id, (d.AddProject s1 p).2 = .ok id →
            ∃ r, r.hasKey p.Name p.Author p.Language = true
              ∧ (rows (addBookmarkedProjectHandler d s c).state).Perm (r :: rows s))
        ∧ (∀ e2, (d.AddProject s1 p).2 = .error e2 →
            rows (addBookmarkedProjectHandler d s c).state = rows s
            ∧ (addBookmarkedProjectHandler d s c).out
                = .JSON 500 (.error [("code", .int 6),
                    ("message", .str "Failed to add new project")])))
    ∧ (ProjectLookup d rows →
        ((∃ r ∈ rows s, r.hasKey p.Name p.Author p.Language = true) →
            (addBookmarkedProjectHandler d s c).calls.filter Call.isAddProject = []
            ∧ rows (addBookmarkedProjectHandler d s c).state = rows s)
        ∧ ((∀ r ∈ rows s, r.hasKey p.Name p.Author p.Language = false) →
            (addBookmarkedProjectHandler d s c).calls.filter Call.isAddProject
                = [.AddProject p
                    (d.AddProject (d.ProjectExists s p.Name p.Author p.Language).1 p).2]
            ∧ (∀ id,
                (d.AddProject (d.ProjectExists s p.Name p.Author p.Language).1 p).2 = .ok id →
                ∃ r, r.hasKey p.Name p.Author p.Language = true
                  ∧ (rows (addBookmarkedProjectHandler d s c).state).Perm (r :: rows s))
            ∧ (∀ e2,
                (d.AddProject (d.ProjectExists s p.Name p.Author p.Language).1 p).2 = .error e2 →
                rows (addBookmarkedProjectHandler d s c).state = rows s
                ∧ (addBookmarkedProjectHandler d s c).out
                    = .JSON 500 (.error [("code", .int 6),
                        ("message", .str "Failed to add new project")])))) := by
  have hfound : ∀ s1 pid, d.ProjectExists s p.Name p.Author p.Language = (s1, .ok pid) →
      (addBookmarkedProjectHandler d s c).calls.filter Call.isAddProject = []
      ∧ rows (addBookmarkedProjectHandler d s c).state = rows s := by
    intro s1 pid hpe
    have hl := hrows.lookup _ _ _ _ _ _ hpe
    rcases hbp : d.BookmarkProject s1 userId pid with ⟨s2, e2 | b⟩
    · have hk := hrows.bookmark _ _ _ _ _ hbp
      simp only [addBookmarkedProjectHandler, hid, hb, hpe, hbp]
      exact ⟨by simp [Call.isAddProject], by rw [hk, hl]⟩
    · have hk := hrows.bookmark _ _ _ _ _ hbp
      simp only [addBookmarkedProjectHandler, hid, hb, hpe, hbp]
      exact ⟨by simp [Call.isAddProject], by rw [hk, hl]⟩
  have hmissing : ∀ s1 e, d.ProjectExists s p.Name p.Author p.Language = (s1, .error e) →
      (addBookmarkedProjectHandler d s c).calls.filter Call.isAddProject
          = [.AddProject p (d.AddProject s1 p).2]
      ∧ (∀ id, (d.AddProject s1 p).2 = .ok id →
          ∃ r, r.hasKey p.Name p.Author p.Language = true
            ∧ (rows (addBookmarkedProjectHandler d s c).state).Perm (r :: rows s))
      ∧ (∀ e2, (d.AddProject s1 p).2 = .error e2 →
          rows (addBookmarkedProjectHandler d s c).state = rows s
          ∧ (addBookmarkedProjectHandler d s c).out
              = .JSON 500 (.error [("code", .int 6),
                  ("message", .str "Failed to add new project")])) := by
    intro s1 e hpe
    have hl := hrows.lookup _ _ _ _ _ _ hpe
    rcases hap : d.AddProject s1 p with ⟨s2, e2 | q⟩
    · refine ⟨by simp [addBookmarkedProjectHandler, hid, hb, hpe, hap, Call.isAddProject],
        by simp, ?_⟩
      intro _ _
      simp only [addBookmarkedProjectHandler, hid, hb, hpe, hap]
      exact ⟨by rw [hrows.add_err _ _ _ _ hap, hl],
        by simp [StatusInternalServerError, errorResponse]⟩
    · obtain ⟨r, hk, hperm⟩ := hrows.add_ok _ _ _ _ hap
      rw [hl] at hperm
      rcases hbp : d.BookmarkProject s2 userId q with ⟨s3, e3 | b⟩
      · have hbk := hrows.bookmark _ _ _ _ _ hbp
        refine ⟨by
          simp [addBookmarkedProjectHandler, hid, hb, hpe, hap, hbp, Call.isAddProject],
          ?_, by simp⟩
        intro id _
        refine ⟨r, hk, ?_⟩
        simp only [addBookmarkedProjectHandler, hid, hb, hpe, hap, hbp]
        rw [hbk]
        exact hperm
      · have hbk := hrows.bookmark _ _ _ _ _ hbp
        refine ⟨by
          simp [addBookmarkedProjectHandler, hid, hb, hpe, hap, hbp, Call.isAddProject],
          ?_, by simp⟩
        intro id _
        refine ⟨r, hk, ?_⟩
        simp only [addBookmarkedProjectHandler, hid, hb, hpe, hap, hbp]
        rw [hbk]
        exact hperm
  refine ⟨hfound, hmissing, fun hlook => ⟨?_, ?_⟩⟩
  · rintro ⟨r, hr, hk⟩
    rcases hpe : d.ProjectExists s p.Name p.Author p.Language with ⟨s1, e | pid⟩
    · rw [hlook.not_found _ _ _ _ _ _ hpe r hr] at hk
      cases hk
    · exact hfound s1 pid hpe
  · intro hall
    rcases hpe : d.ProjectExists s p.Name p.Author p.Language with ⟨s1, e | pid⟩
    · exact hmissing s1 e hpe
    · obtain ⟨r, hr, hk⟩ := hlook.found _ _ _ _ _ _ hpe
      rw [hall r hr] at hk
      cases hk

theorem addBookmark_project_rows_witness :
    ((addBookmarkedProjectHandler storeDeps sampleStore novelProjectRequest).calls.filter
          Call.isAddProject = [.AddProject ⟨0, "gin", "gin-gonic", "Go"⟩ (.ok 2)]
      ∧ ∃ r, r.hasKey "gin" "gin-gonic" "Go" = true
          ∧ ((addBookmarkedProjectHandler storeDeps sampleStore
                novelProjectRequest).state.projects).Perm (r :: sampleStore.projects))
    ∧ ((addBookmarkedProjectHandler storeDeps
            { sampleStore with connected := false } novelProjectRequest).calls.filter
          Call.isAddProject
          = [.AddProject ⟨0, "gin", "gin-gonic", "Go"⟩ (.error "connection failure")]
      ∧ (addBookmarkedProjectHandler storeDeps
            { sampleStore with connected := false } novelProjectRequest).state.projects
          = sampleStore.projects
      ∧ (addBookmarkedProjectHandler storeDeps
            { sampleStore with connected := false } novelProjectRequest).out
          = .JSON 500 (.error [("code", .int 6), ("message", .str "Failed to add new project")]))
    ∧ ((addBookmarkedProjectHandler storeDeps sampleStore knownProjectRequest).calls.filter
          Call.isAddProject = []
      ∧ (addBookmarkedProjectHandler storeDeps sampleStore knownProjectRequest).state.projects
          = sampleStore.projects) :=
  ⟨⟨((addBookmark_project_rows storeDeps Store.projects storeDeps_projectRows sampleStore
        novelProjectRequest 1 ⟨0, "gin", "gin-gonic", "Go"⟩ (by decide) rfl).2.1
        sampleStore "sql: no rows in result set" (by decide)).1,
     ((addBookmark_project_rows storeDeps Store.projects storeDeps_projectRows sampleStore
        novelProjectRequest 1 ⟨0, "gin", "gin-gonic", "Go"⟩ (by decide) rfl).2.1
        sampleStore "sql: no rows in result set" (by decide)).2.1 2 (by decide)⟩,
   ⟨((addBookmark_project_rows storeDeps Store.projects storeDeps_projectRows
        { sampleStore with connected := false }
        novelProjectRequest 1 ⟨0, "gin", "gin-gonic", "Go"⟩ (by decide) rfl).2.1
        { sampleStore with connected := false } "sql: no rows in result set" (by decide)).1,
     ((addBookmark_project_rows storeDeps Store.projects storeDeps_projectRows
        { sampleStore with connected := false }
        novelProjectRequest 1 ⟨0, "gin", "gin-gonic", "Go"⟩ (by decide) rfl).2.1
        { sampleStore with connected := false } "sql: no rows in result set"
        (by decide)).2.2 "connection failure" (by decide)⟩,
   (addBookmark_project_rows storeDeps Store.projects storeDeps_projectRows sampleStore
      knownProjectRequest 1 ⟨0, "echo", "labstack", "Go"⟩ (by decide) rfl).2.2
      storeDeps_projectLookup |>.1 ⟨⟨1, "echo", "labstack", "Go"⟩, by decide, by decide⟩⟩

/-! ## Add bookmark: the bookmark insert -/

/-- C4: for an add-bookmark request whose id and body decode,
`addBookmarkedProjectHandler` calls `db.BookmarkProject` at most once and only
with the user id parsed from the path; when `db.ProjectExists` succeeds with
id `pid` the call is for `(userId, pid)`; when `db.ProjectExists` fails and
`db.AddProject` succeeds with id `q` the call is for `(userId, q)`; and the
response has status 200 exactly when a `db.BookmarkProject` call was made and
returned no error. -/
theorem addBookmark_bookmark_call (d : Deps σ) (s : σ) (c : Context) (userId : Int)
    (p : Project) (hid : Atoi c.Param = .ok userId) (hb : c.BindProject = .ok p) :
    (bookmarkArgs (addBookmarkedProjectHandler d s c).calls).length ≤ 1
    ∧ (∀ a ∈ bookmarkArgs (addBookmarkedProjectHandler d s c).calls, a.1 = userId)
    ∧ (∀ s1 pid, d.ProjectExists s p.Name p.Author p.Language = (s1, .ok pid) →
        bookmarkArgs (addBookmarkedProjectHandler d s c).calls = [(userId, pid)]
        ∧ ((addBookmarkedProjectHandler d s c).out.status = some 200
            ↔ ∃ s2 b, d.BookmarkProject s1 userId pid = (s2, .ok b)))
    ∧ (∀ s1 e s2 q, d.ProjectExists s p.Name p.Author p.Language = (s1, .error e) →
        d.AddProject s1 p = (s2, .ok q) →
        bookmarkArgs (addBookmarkedProjectHandler d s c).calls = [(userId, q)]
        ∧ ((addBookmarkedProjectHandler d s c).out.status = some 200
            ↔ ∃ s3 b, d.BookmarkProject s2 userId q = (s3, .ok b)))
    ∧ ((addBookmarkedProjectHandler d s c).out.status = some 200
        ↔ ∃ x ∈ (addBookmarkedProjectHandler d s c).calls, x.isBookmarkOk = true) := by
  rcases hpe : d.ProjectExists s p.Name p.Author p.Language with ⟨s1, e | pid⟩
  · rcases hap : d.AddProject s1 p with ⟨s2, e2 | q⟩
    · simp [addBookmarkedProjectHandler, hid, hb, hpe, hap, bookmarkArgs, Outcome.status,
        Call.isBookmarkOk, StatusInternalServerError]
      rintro _ _ t q rfl rfl h
      rw [hap] at h
      simp at h
    · rcases hbp : d.BookmarkProject s2 userId q with ⟨s3, e3 | b⟩ <;>
        simp [addBookmarkedProjectHandler, hid, hb, hpe, hap, hbp, bookmarkArgs,
          Outcome.status, Call.isBookmarkOk, StatusInternalServerError, StatusOK] <;>
        rintro _ _ t q1 rfl rfl h <;>
        rw [hap] at h <;>
        simp only [Prod.mk.injEq, Except.ok.injEq] at h <;>
        obtain ⟨rfl, rfl⟩ := h <;>
        simp [hbp]
  · rcases hbp : d.BookmarkProject s1 userId pid with ⟨s2, e2 | b⟩ <;>
      simp [addBookmarkedProjectHandler, hid, hb, hpe, hbp, bookmarkArgs,
        Outcome.status, Call.isBookmarkOk, StatusInternalServerError, StatusOK]

theorem addBookmark_bookmark_call_witness :
    bookmarkArgs (addBookmarkedProjectHandler storeDeps sampleStore knownProjectRequest).calls
        = [(1, 1)]
      ∧ ((addBookmarkedProjectHandler storeDeps sampleStore knownProjectRequest).out.status
            = some 200
          ↔ ∃ s2 b, storeDeps.BookmarkProject sampleStore 1 1 = (s2, .ok b)) :=
  (addBookmark_bookmark_call storeDeps sampleStore knownProjectRequest 1
    ⟨0, "echo", "labstack", "Go"⟩ (by decide) rfl).2.2.1 sampleStore 1 (by decide)

/-! ## Sign-up: the stored password -/

/-- C5: when the sign-up body binds and `util.HashPassword` succeeds, the
users INSERT is attempted once and its password argument is exactly the value
`util.HashPassword` returned for the submitted password; with a hashing
utility that is one-way as the specification words it, that value is never the
submitted plaintext. -/
theorem signUp_stores_hash (d : Deps σ) (s s1 : σ) (c : Context) (u : User) (hash : String)
    (hb : c.BindUser = .ok u) (hh : d.HashPassword s u.Password = (s1, .ok hash))
    (hone : HashIsOneWay d) :
    insertedPasswords (signUpHandler d s c).calls = [hash]
      ∧ (∃ res, Call.InsertUser u.Username hash u.Email "now()" res ∈ (signUpHandler d s c).calls
          ∧ (d.InsertUser s1 u.Username hash u.Email "now()").2 = res)
      ∧ ∀ pw ∈ insertedPasswords (signUpHandler d s c).calls, pw ≠ u.Password := by
  have hne : hash ≠ u.Password := hone _ _ _ _ hh
  rcases hi : d.InsertUser s1 u.Username hash u.Email "now()" with ⟨s2, e | id⟩
  · simp [signUpHandler, hb, hh, hi, insertedPasswords, hne]
  · rcases hs : d.SendEmail s2 u.Username u.Email with ⟨s3, _ | e⟩ <;>
      simp [signUpHandler, hb, hh, hi, hs, insertedPasswords, hne]

theorem signUp_stores_hash_witness :
    insertedPasswords (signUpHandler storeDeps emptyStore aliceRequest).calls = ["$2a$s3cret"]
      ∧ (∃ res, Call.InsertUser "alice" "$2a$s3cret" "alice@example.org" "now()" res
            ∈ (signUpHandler storeDeps emptyStore aliceRequest).calls
          ∧ (storeDeps.InsertUser emptyStore "alice" "$2a$s3cret" "alice@example.org" "now()").2
              = res)
      ∧ ∀ pw ∈ insertedPasswords (signUpHandler storeDeps emptyStore aliceRequest).calls,
          pw ≠ "s3cret" :=
  signUp_stores_hash storeDeps emptyStore emptyStore aliceRequest
    ⟨0, "alice", "s3cret", "alice@example.org", "", "", ""⟩ "$2a$s3cret" rfl (by decide)
    storeDeps_hashIsOneWay

/-! ## Sign-up: the welcome email -/

/-- C6: when the sign-up body binds, hashing succeeds and the INSERT succeeds,
`signUpHandler` answers 200 with body "OK" whatever `service.SendEmail`
returns: replacing the mail service by any other leaves the response the
same. -/
theorem signUp_ok_regardless_of_email (d : Deps σ) (s s1 s2 : σ) (c : Context) (u : User)
    (hash : String) (id : Int)
    (hb : c.BindUser = .ok u) (hh : d.HashPassword s u.Password = (s1, .ok hash))
    (hi : d.InsertUser s1 u.Username hash u.Email "now()" = (s2, .ok id)) :
    (signUpHandler d s c).out = .JSON 200 (.text "OK")
      ∧ ∀ send : σ → String → String → σ × Option Error,
          (signUpHandler { d with SendEmail := send } s c).out = .JSON 200 (.text "OK") := by
  refine ⟨?_, fun send => ?_⟩
  · rcases hs : d.SendEmail s2 u.Username u.Email with ⟨s3, _ | e⟩ <;>
      simp [signUpHandler, hb, hh, hi, hs, StatusOK]
  · rcases hs : send s2 u.Username u.Email with ⟨s3, _ | e⟩ <;>
      simp [signUpHandler, hb, hh, hi, hs, StatusOK]

theorem signUp_ok_regardless_of_email_witness :
    storeDeps.SendEmail
        { noMailStore with users := [⟨1, "alice", "$2a$s3cret", "alice@example.org", "", "", ""⟩] }
        "alice" "alice@example.org"
        = ({ noMailStore with
              users := [⟨1, "alice", "$2a$s3cret", "alice@example.org", "", "", ""⟩] },
            some "mail service unavailable")
      ∧ (signUpHandler storeDeps noMailStore aliceRequest).out = .JSON 200 (.text "OK") :=
  ⟨by decide,
    (signUp_ok_regardless_of_email storeDeps noMailStore noMailStore
      { noMailStore with users := [⟨1, "alice", "$2a$s3cret", "alice@example.org", "", "", ""⟩] }
      aliceRequest ⟨0, "alice", "s3cret", "alice@example.org", "", "", ""⟩ "$2a$s3cret" 1
      rfl (by decide) (by decide)).1⟩

/-! ## Sign-in: the issued claims -/

/-- C7: when the sign-in body binds and `db.ConfirmUser` succeeds with a
stored user, the one token `signinHandler` signs has claims carrying exactly
that user's `Id` and `Username` and an `ExpiresAt` equal to the Unix time of
the current instant plus 86400 seconds; and every 200 response carries the
signed token with a user summary holding the same id and username. -/
theorem signin_claims (d : Deps σ) (s s1 : σ) (c : Context) (u user : User)
    (hb : c.BindUser = .ok u) (hc : d.ConfirmUser s u = (s1, .ok user)) :
    signedClaims (signinHandler d s c).calls
        = [⟨user.Id, user.Username, ⟨Unix (d.Now s1) + 86400⟩⟩]
      ∧ (∀ t, d.SignedString ⟨user.Id, user.Username, ⟨Unix (d.Now s1) + 86400⟩⟩ "secret" = .ok t →
          (signinHandler d s c).out = .JSON 200 (.login t (userSummary user)))
      ∧ ((signinHandler d s c).out.status = some 200 →
          ∃ t, (signinHandler d s c).out = .JSON 200 (.login t (userSummary user)))
      ∧ ("id", Value.int user.Id) ∈ userSummary user
      ∧ ("username", Value.str user.Username) ∈ userSummary user := by
  have hcl : signinClaims user (d.Now s1) = ⟨user.Id, user.Username, ⟨Unix (d.Now s1) + 86400⟩⟩ := by
    simp [signinClaims, unix_add_day]
  rcases hs : d.SignedString ⟨user.Id, user.Username, ⟨Unix (d.Now s1) + 86400⟩⟩ "secret"
    with e | t <;>
    simp [signinHandler, hb, hc, hcl, hs, signedClaims, Outcome.status, StatusOK, userSummary]

theorem signin_claims_witness :
    signedClaims (signinHandler storeDeps sampleStore aliceRequest).calls
        = [⟨1, "alice", ⟨1700000000 + 86400⟩⟩]
      ∧ (signinHandler storeDeps sampleStore aliceRequest).out
        = .JSON 200 (.login "secret.alice"
            [("favorite_language", .str "Go"), ("frequency", .str "daily"), ("id", .int 1),
             ("languages", .str "Go"), ("username", .str "alice")]) :=
  ⟨(signin_claims storeDeps sampleStore sampleStore aliceRequest
      ⟨0, "alice", "s3cret", "alice@example.org", "", "", ""⟩
      ⟨1, "alice", "$2a$s3cret", "alice@example.org", "Go", "Go", "daily"⟩ rfl (by decide)).1,
   (signin_claims storeDeps sampleStore sampleStore aliceRequest
      ⟨0, "alice", "s3cret", "alice@example.org", "", "", ""⟩
      ⟨1, "alice", "$2a$s3cret", "alice@example.org", "Go", "Go", "daily"⟩ rfl (by decide)).2.1
      "secret.alice" (by decide)⟩

/-! ## The failure outcomes -/

/-- C8: with a token signer that cannot fail (HS256 over a byte-slice key),
every outcome of the four handlers is either a 200 response or one of the
listed failures, each a JSON body with exactly the keys `code` (an integer)
and `message` (a string): code 1 for a body that fails to bind, 2 for a
hashing failure, 3 for an insert failure on sign-up, 4 for a credential
mismatch, 5 for a bad id path parameter, 6 for a project-creation failure, 7
and 8 for a bookmark-insert failure (after creating the project, resp. for an
existing project); so every failure outcome has that shape and one of the
codes 1 to 8. -/
theorem failure_outcomes (d : Deps σ) (s : σ) (c : Context) (hsign : SignerTotal d) :
    (((∃ e, c.BindUser = .error e)
          ∧ (signUpHandler d s c).out = errorJSON 400 1 "Bad request!")
      ∨ ((∃ u s1 e, c.BindUser = .ok u ∧ d.HashPassword s u.Password = (s1, .error e))
          ∧ (signUpHandler d s c).out = errorJSON 500 2 "Server error")
      ∨ ((∃ u s1 hash s2 e, c.BindUser = .ok u ∧ d.HashPassword s u.Password = (s1, .ok hash)
            ∧ d.InsertUser s1 u.Username hash u.Email "now()" = (s2, .error e))
          ∧ (signUpHandler d s c).out = errorJSON 500 3 "SQL Error")
      ∨ (signUpHandler d s c).out = .JSON 200 (.text "OK"))
    ∧ (((∃ e, c.BindUser = .error e)
          ∧ (signinHandler d s c).out = errorJSON 400 1 "Bad request!")
      ∨ ((∃ u s1 e, c.BindUser = .ok u ∧ d.ConfirmUser s u = (s1, .error e))
          ∧ (signinHandler d s c).out = errorJSON 403 4 "Login credentials are not correct")
      ∨ (∃ t user, (signinHandler d s c).out = .JSON 200 (.login t (userSummary user))))
    ∧ (((∃ e, Atoi c.Param = .error e)
          ∧ (getBookmarkedProjectsHandler d s c).out = errorJSON 400 5 "Bad request!")
      ∨ (∃ ps, (getBookmarkedProjectsHandler d s c).out = .JSON 200 (.projects ps)))
    ∧ (((∃ e, Atoi c.Param = .error e)
          ∧ (addBookmarkedProjectHandler d s c).out = errorJSON 400 5 "Bad request!")
      ∨ ((∃ userId e, Atoi c.Param = .ok userId ∧ c.BindProject = .error e)
          ∧ (addBookmarkedProjectHandler d s c).out = errorJSON 400 1 "Bad request!")
      ∨ ((∃ p s1 e s2 e2, c.BindProject = .ok p
            ∧ d.ProjectExists s p.Name p.Author p.Language = (s1, .error e)
            ∧ d.AddProject s1 p = (s2, .error e2))
          ∧ (addBookmarkedProjectHandler d s c).out = errorJSON 500 6 "Failed to add new project")
      ∨ ((∃ userId p s1 e s2 q s3 e3, Atoi c.Param = .ok userId ∧ c.BindProject = .ok p
            ∧ d.ProjectExists s p.Name p.Author p.Language = (s1, .error e)
            ∧ d.AddProject s1 p = (s2, .ok q)
            ∧ d.BookmarkProject s2 userId q = (s3, .error e3))
          ∧ (addBookmarkedProjectHandler d s c).out = errorJSON 500 7 "Failed to bookmark project")
      ∨ ((∃ userId p s1 pid s2 e2, Atoi c.Param = .ok userId ∧ c.BindProject = .ok p
            ∧ d.ProjectExists s p.Name p.Author p.Language = (s1, .ok pid)
            ∧ d.BookmarkProject s1 userId pid = (s2, .error e2))
          ∧ (addBookmarkedProjectHandler d s c).out = errorJSON 500 8 "Failed to bookmark project")
      ∨ (addBookmarkedProjectHandler d s c).out = .JSON 200 (.text "Bookmarked project 1")
      ∨ (addBookmarkedProjectHandler d s c).out = .JSON 200 (.text "Bookmarked project 2"))
    ∧ (∀ o ∈ [(signUpHandler d s c).out, (signinHandler d s c).out,
              (getBookmarkedProjectsHandler d s c).out, (addBookmarkedProjectHandler d s c).out],
        o.isFailure = true → ∃ n ∈ [1, 2, 3, 4, 5, 6, 7, 8], o.errorCode = some n) := by
  have h1 : ((∃ e, c.BindUser = .error e)
          ∧ (signUpHandler d s c).out = errorJSON 400 1 "Bad request!")
      ∨ ((∃ u s1 e, c.BindUser = .ok u ∧ d.HashPassword s u.Password = (s1, .error e))
          ∧ (signUpHandler d s c).out = errorJSON 500 2 "Server error")
      ∨ ((∃ u s1 hash s2 e, c.BindUser = .ok u ∧ d.HashPassword s u.Password = (s1, .ok hash)
            ∧ d.InsertUser s1 u.Username hash u.Email "now()" = (s2, .error e))
          ∧ (signUpHandler d s c).out = errorJSON 500 3 "SQL Error")
      ∨ (signUpHandler d s c).out = .JSON 200 (.text "OK") := by
    rcases hb : c.BindUser with e | u
    · simp [signUpHandler, hb, errorJSON, StatusBadRequest]
    · rcases hh : d.HashPassword s u.Password with ⟨s1, e | hash⟩
      · simp [signUpHandler, hb, hh, errorJSON, StatusInternalServerError]
      · rcases hi : d.InsertUser s1 u.Username hash u.Email "now()" with ⟨s2, e | id⟩
        · simp [signUpHandler, hb, hh, hi, errorJSON, StatusInternalServerError]
          exact ⟨_, _, ⟨rfl, rfl⟩, _, _, hi⟩
        · rcases hs : d.SendEmail s2 u.Username u.Email with ⟨s3, _ | e⟩ <;>
            simp [signUpHandler, hb, hh, hi, hs, StatusOK]
  have h2 : ((∃ e, c.BindUser = .error e)
          ∧ (signinHandler d s c).out = errorJSON 400 1 "Bad request!")
      ∨ ((∃ u s1 e, c.BindUser = .ok u ∧ d.ConfirmUser s u = (s1, .error e))
          ∧ (signinHandler d s c).out = errorJSON 403 4 "Login credentials are not correct")
      ∨ (∃ t user, (signinHandler d s c).out = .JSON 200 (.login t (userSummary user))) := by
    rcases hb : c.BindUser with e | u
    · simp [signinHandler, hb, errorJSON, StatusBadRequest]
    · rcases hc : d.ConfirmUser s u with ⟨s1, e | user⟩
      · simp [signinHandler, hb, hc, errorJSON, StatusForbidden]
      · obtain ⟨t, hs⟩ := hsign (signinClaims user (d.Now s1))
        right; right
        exact ⟨t, user, by simp [signinHandler, hb, hc, hs, StatusOK]⟩
  have h3 : ((∃ e, Atoi c.Param = .error e)
          ∧ (getBookmarkedProjectsHandler d s c).out = errorJSON 400 5 "Bad request!")
      ∨ (∃ ps, (getBookmarkedProjectsHandler d s c).out = .JSON 200 (.projects ps)) := by
    rcases hid : Atoi c.Param with e | userId
    · simp [getBookmarkedProjectsHandler, hid, errorJSON, StatusBadRequest]
    · simp [getBookmarkedProjectsHandler, hid, StatusOK]
  have h4 : ((∃ e, Atoi c.Param = .error e)
          ∧ (addBookmarkedProjectHandler d s c).out = errorJSON 400 5 "Bad request!")
      ∨ ((∃ userId e, Atoi c.Param = .ok userId ∧ c.BindProject = .error e)
          ∧ (addBookmarkedProjectHandler d s c).out = errorJSON 400 1 "Bad request!")
      ∨ ((∃ p s1 e s2 e2, c.BindProject = .ok p
            ∧ d.ProjectExists s p.Name p.Author p.Language = (s1, .error e)
            ∧ d.AddProject s1 p = (s2, .error e2))
          ∧ (addBookmarkedProjectHandler d s c).out = errorJSON 500 6 "Failed to add new project")
      ∨ ((∃ userId p s1 e s2 q s3 e3, Atoi c.Param = .ok userId ∧ c.BindProject = .ok p
            ∧ d.ProjectExists s p.Name p.Author p.Language = (s1, .error e)
            ∧ d.AddProject s1 p = (s2, .ok q)
            ∧ d.BookmarkProject s2 userId q = (s3, .error e3))
          ∧ (addBookmarkedProjectHandler d s c).out = errorJSON 500 7 "Failed to bookmark project")
      ∨ ((∃ userId p s1 pid s2 e2, Atoi c.Param = .ok userId ∧ c.BindProject = .ok p
            ∧ d.ProjectExists s p.Name p.Author p.Language = (s1, .ok pid)
            ∧ d.BookmarkProject s1 userId pid = (s2, .error e2))
          ∧ (addBookmarkedProjectHandler d s c).out = errorJSON 500 8 "Failed to bookmark project")
      ∨ (addBookmarkedProjectHandler d s c).out = .JSON 200 (.text "Bookmarked project 1")
      ∨ (addBookmarkedProjectHandler d s c).out = .JSON 200 (.text "Bookmarked project 2") := by
    rcases hid : Atoi c.Param with e | userId
    · simp [addBookmarkedProjectHandler, hid, errorJSON, StatusBadRequest]
    · rcases hb : c.BindProject with e | p
      · simp [addBookmarkedProjectHandler, hid, hb, errorJSON, StatusBadRequest]
      · rcases hpe : d.ProjectExists s p.Name p.Author p.Language with ⟨s1, e | pid⟩
        · rcases hap : d.AddProject s1 p with ⟨s2, e2 | q⟩
          · simp [addBookmarkedProjectHandler, hid, hb, hpe, hap, errorJSON,
              StatusInternalServerError]
          · rcases hbp : d.BookmarkProject s2 userId q with ⟨s3, e3 | b⟩
            · simp [addBookmarkedProjectHandler, hid, hb, hpe, hap, hbp, errorJSON,
                StatusInternalServerError]
              exact ⟨_, _, ⟨rfl, rfl⟩, _, _, hbp⟩
            · simp [addBookmarkedProjectHandler, hid, hb, hpe, hap, hbp, StatusOK]
        · rcases hbp : d.BookmarkProject s1 userId pid with ⟨s2, e2 | b⟩
          · simp [addBookmarkedProjectHandler, hid, hb, hpe, hbp, errorJSON,
              StatusInternalServerError]
            exact ⟨_, _, ⟨rfl, rfl⟩, _, _, hbp⟩
          · simp [addBookmarkedProjectHandler, hid, hb, hpe, hbp, StatusOK]
  refine ⟨h1, h2, h3, h4, ?_⟩
  intro o ho hfail
  simp only [List.mem_cons, List.mem_singleton, List.not_mem_nil, or_false] at ho
  rcases ho with rfl | rfl | rfl | rfl
  · rcases h1 with ⟨_, h⟩ | ⟨_, h⟩ | ⟨_, h⟩ | h <;> rw [h] at hfail ⊢
    · exact ⟨1, by simp, errorCode_errorJSON _ _ _⟩
    · exact ⟨2, by simp, errorCode_errorJSON _ _ _⟩
    · exact ⟨3, by simp, errorCode_errorJSON _ _ _⟩
    · rw [isFailure_ok] at hfail; cases hfail
  · rcases h2 with ⟨_, h⟩ | ⟨_, h⟩ | ⟨t, user, h⟩ <;> rw [h] at hfail ⊢
    · exact ⟨1, by simp, errorCode_errorJSON _ _ _⟩
    · exact ⟨4, by simp, errorCode_errorJSON _ _ _⟩
    · rw [isFailure_ok] at hfail; cases hfail
  · rcases h3 with ⟨_, h⟩ | ⟨ps, h⟩ <;> rw [h] at hfail ⊢
    · exact ⟨5, by simp, errorCode_errorJSON _ _ _⟩
    · rw [isFailure_ok] at hfail; cases hfail
  · rcases h4 with ⟨_, h⟩ | ⟨_, h⟩ | ⟨_, h⟩ | ⟨_, h⟩ | ⟨_, h⟩ | h | h <;> rw [h] at hfail ⊢
    · exact ⟨5, by simp, errorCode_errorJSON _ _ _⟩
    · exact ⟨1, by simp, errorCode_errorJSON _ _ _⟩
    · exact ⟨6, by simp, errorCode_errorJSON _ _ _⟩
    · exact ⟨7, by simp, errorCode_errorJSON _ _ _⟩
    · exact ⟨8, by simp, errorCode_errorJSON _ _ _⟩
    · rw [isFailure_ok] at hfail; cases hfail
    · rw [isFailure_ok] at hfail; cases hfail

theorem failure_outcomes_witness :
    (signinHandler storeDeps sampleStore wrongPasswordRequest).out.isFailure = true
      ∧ (∃ n ∈ [1, 2, 3, 4, 5, 6, 7, 8],
          (signinHandler storeDeps sampleStore wrongPasswordRequest).out.errorCode = some n)
      ∧ (signinHandler storeDeps sampleStore aliceRequest).out.isFailure = false :=
  ⟨by decide,
   (failure_outcomes storeDeps sampleStore wrongPasswordRequest storeDeps_signerTotal).2.2.2.2
      _ (by simp) (by decide),
   by decide⟩

/-! ## List bookmarks -/

/-- C9: when the path id parses as an integer, `getBookmarkedProjectsHandler`
answers 200 with exactly the sequence `db.FetchUserBookmarkedProjects`
returned for that user id and never with a failure, so an empty sequence
gives 200 with an empty sequence; over the store of the specification, a user
with no bookmark row gets 200 with the empty sequence. -/
theorem getBookmarks_ok (d : Deps σ) (s : σ) (c : Context) (userId : Int)
    (hid : Atoi c.Param = .ok userId) :
    (getBookmarkedProjectsHandler d s c).out
        = .JSON 200 (.projects (d.FetchUserBookmarkedProjects s userId).2)
      ∧ (getBookmarkedProjectsHandler d s c).out.isFailure = false
      ∧ (getBookmarkedProjectsHandler d s c).calls
        = [.FetchUserBookmarkedProjects userId (d.FetchUserBookmarkedProjects s userId).2]
      ∧ ((d.FetchUserBookmarkedProjects s userId).2 = [] →
          (getBookmarkedProjectsHandler d s c).out = .JSON 200 (.projects []))
      ∧ ∀ st : Store, (∀ b ∈ st.bookmarks, b.1 ≠ userId) →
          (getBookmarkedProjectsHandler storeDeps st c).out = .JSON 200 (.projects []) := by
  refine ⟨?_, ?_, ?_, ?_, ?_⟩
  · simp [getBookmarkedProjectsHandler, hid, StatusOK]
  · simp [getBookmarkedProjectsHandler, hid, Outcome.isFailure, Outcome.status]
  · simp [getBookmarkedProjectsHandler, hid]
  · intro h
    simp [getBookmarkedProjectsHandler, hid, StatusOK, h]
  · intro st hst
    have hf : st.bookmarks.filter (fun b => b.1 == userId) = [] := by
      rw [List.filter_eq_nil_iff]
      intro b hb
      simpa using hst b hb
    simp [getBookmarkedProjectsHandler, hid, StatusOK, storeDeps,
      Store.FetchUserBookmarkedProjects, hf]

theorem getBookmarks_ok_witness :
    (getBookmarkedProjectsHandler storeDeps sampleStore aliceRequest).out
        = .JSON 200 (.projects [⟨1, "echo", "labstack", "Go"⟩])
      ∧ (getBookmarkedProjectsHandler storeDeps emptyStore aliceRequest).out
        = .JSON 200 (.projects []) :=
  ⟨(getBookmarks_ok storeDeps sampleStore aliceRequest 1 (by decide)).1,
   (getBookmarks_ok storeDeps sampleStore aliceRequest 1 (by decide)).2.2.2.2 emptyStore
      (by decide)⟩

/-! ## Sign-up: the order of the steps -/

/-- C10: `signUpHandler` runs bind, hash, INSERT, email in that order and stops
at the first failure: a bind failure gives 400 with code 1 and no collaborator
call at all; a hashing failure gives 500 with code 2, no INSERT and no email;
an INSERT failure gives 500 with code 3 and no email; every
`service.SendEmail` call comes after an INSERT that succeeded; and the INSERT
is attempted at most once. -/
theorem signUp_failures_terminal (d : Deps σ) (s : σ) (c : Context) :
    (∀ e, c.BindUser = .error e →
        (signUpHandler d s c).out = errorJSON 400 1 "Bad request!"
        ∧ (signUpHandler d s c).calls = [] ∧ (signUpHandler d s c).state = s)
    ∧ (∀ u s1 e, c.BindUser = .ok u → d.HashPassword s u.Password = (s1, .error e) →
        (signUpHandler d s c).out = errorJSON 500 2 "Server error"
        ∧ ∀ x ∈ (signUpHandler d s c).calls, x.isInsertUser = false ∧ x.isSendEmail = false)
    ∧ (∀ u s1 hash s2 e, c.BindUser = .ok u → d.HashPassword s u.Password = (s1, .ok hash) →
        d.InsertUser s1 u.Username hash u.Email "now()" = (s2, .error e) →
        (signUpHandler d s c).out = errorJSON 500 3 "SQL Error"
        ∧ ∀ x ∈ (signUpHandler d s c).calls, x.isSendEmail = false)
    ∧ emailOnlyAfterInsert false (signUpHandler d s c).calls = true
    ∧ ((signUpHandler d s c).calls.filter Call.isInsertUser).length ≤ 1
    ∧ ((signUpHandler d s c).calls.filter Call.isHashPassword).length ≤ 1
    ∧ ((signUpHandler d s c).calls.filter Call.isSendEmail).length ≤ 1 := by
  refine ⟨?_, ?_, ?_, ?_⟩
  · intro e hb
    simp [signUpHandler, hb, errorJSON, StatusBadRequest]
  · intro u s1 e hb hh
    simp [signUpHandler, hb, hh, errorJSON, StatusInternalServerError, Call.isInsertUser,
      Call.isSendEmail]
  · intro u s1 hash s2 e hb hh hi
    simp [signUpHandler, hb, hh, hi, errorJSON, StatusInternalServerError, Call.isSendEmail]
  · rcases hb : c.BindUser with e | u
    · simp [signUpHandler, hb, emailOnlyAfterInsert]
    · rcases hh : d.HashPassword s u.Password with ⟨s1, e | hash⟩
      · simp [signUpHandler, hb, hh, emailOnlyAfterInsert, Call.isInsertUser, Call.isSendEmail,
          Call.isHashPassword]
      · rcases hi : d.InsertUser s1 u.Username hash u.Email "now()" with ⟨s2, e | id⟩
        · simp [signUpHandler, hb, hh, hi, emailOnlyAfterInsert, Call.isInsertUser,
            Call.isSendEmail, Call.isHashPassword]
        · rcases hs : d.SendEmail s2 u.Username u.Email with ⟨s3, _ | e⟩ <;>
            simp [signUpHandler, hb, hh, hi, hs, emailOnlyAfterInsert, Call.isInsertUser,
              Call.isSendEmail, Call.isHashPassword]

theorem signUp_failures_terminal_witness :
    (signUpHandler storeDeps offlineStore aliceRequest).out = errorJSON 500 3 "SQL Error"
      ∧ ∀ x ∈ (signUpHandler storeDeps offlineStore aliceRequest).calls,
          x.isSendEmail = false :=
  (signUp_failures_terminal storeDeps offlineStore aliceRequest).2.2.1
    ⟨0, "alice", "s3cret", "alice@example.org", "", "", ""⟩ offlineStore "$2a$s3cret"
    offlineStore "connection failure" rfl (by decide) (by decide)

end GithubExplorer
